import Mathlib

/-!
# Verification of the npe1-colecture slide-image pipeline

Shallow embedding of the decision pipeline of the `npe1-colecture`
repository (`src/models.py`, `src/keyword_extractor.py`, `src/image_search.py`,
`src/image_scorer.py`, `src/orchestrator.py`, `src/generated_cache.py`) and
proofs about the spec claims C1..C10.

Modelling conventions:
* Python floats are modelled as rationals (`ℚ`); the numeric literals the
  claims mention (0.5, 0.98, 0.99, ...) are exact in both representations
  and all comparisons the code performs agree.
* Every external call (LLM invocation, HTTP search/score/generation
  request, translator) is a parameter of the embedding (an "environment"
  record field), holding either the call's returned value or the exception
  it raised (`Except PyError`).
* Python exceptions are values of `PyError`; a function that can raise is
  embedded in `Except PyError`.
* Heterogeneous JSON-ish payloads (provider responses, bullet dicts) are
  values of the inductive type `PyVal`; Python `dict`s are association
  lists ordered by insertion, `dict.get` is `PyDict.get`.
-/

/-- A Python exception, as data.  `attributeError` is kept separate because
the pipeline contains an unconditional `AttributeError` (access to the
nonexistent `SlideInput.unsplashSearchTerms` field); every other exception
is carried with its message. -/
inductive PyError where
  | attributeError
  | exc (msg : String)
deriving Repr, DecidableEq

/-- A Python/JSON value as seen by the pipeline: `None`, booleans, numbers
(floats modelled as `ℚ`), strings, lists and dicts. -/
inductive PyVal where
  | pnone
  | pbool (b : Bool)
  | pnum (q : ℚ)
  | pstr (s : String)
  | plist (xs : List PyVal)
  | pdict (entries : List (String × PyVal))

/-- A Python dict with string keys (insertion-ordered association list). -/
abbrev PyDict := List (String × PyVal)

/-- `d.get(k)` on a Python dict: `some v` when the key is present
(first matching entry), `none` when absent. -/
def PyDict.get (d : PyDict) (k : String) : Option PyVal :=
  (d.find? (fun p => p.1 = k)).map (fun p => p.2)

/-- Python truthiness of a `PyVal` (`bool(v)`), for the shapes the
pipeline actually branches on. -/
def PyVal.truthy : PyVal → Bool
  | .pnone => false
  | .pbool b => b
  | .pnum q => decide (q ≠ 0)
  | .pstr s => decide (s ≠ "")
  | .plist xs => !xs.isEmpty
  | .pdict d => !d.isEmpty

/-- Python truthiness of an optional string (`None` and `""` are falsy). -/
def pyTruthyStr : Option String → Bool
  | none => false
  | some s => s ≠ ""

/-- Python `a or default` for an optional string (`None`/`""` replaced). -/
def pyOrStr (a : Option String) (dflt : String) : String :=
  match a with
  | some s => if s ≠ "" then s else dflt
  | none => dflt

/-- Python `" ".join(parts)`: raises `TypeError` when a part is not a
string (the pipeline builds the join list from arbitrary bullet-dict
values, so this can matter). -/
def pyJoinSpace : List PyVal → Except PyError String
  | [] => .ok ""
  | [.pstr s] => .ok s
  | .pstr s :: rest => do
      let tail ← pyJoinSpace rest
      .ok (s ++ " " ++ tail)
  | _ => .error (.exc "sequence item: expected str instance")

/-- Substring containment on character lists (Python `pat in text`). -/
def containsSub (pat : List Char) : List Char → Bool
  | [] => pat.isEmpty
  | c :: rest => pat.isPrefixOf (c :: rest) || containsSub pat rest

/-! ## `src/models.py` — data model -/

/-- `ColorConfig` (models.py lines 6-10). -/
structure ColorConfig where
  primary : Option String := none
  secondary : Option String := none
deriving Repr, DecidableEq

/-- `image_mode: Literal["stock_only", "ai_only", "auto"]`. -/
inductive ImageMode where
  | stock_only
  | ai_only
  | auto
deriving Repr, DecidableEq

/-- `ai_model: Literal["auto", "flux", "banana", "imagen"]`. -/
inductive AiModel where
  | auto
  | flux
  | banana
  | imagen
deriving Repr, DecidableEq

/-- The string the `ai_model` literal stands for (used by the f-string
`f"generated_{slide.ai_model}"` in the orchestrator). -/
def AiModel.str : AiModel → String
  | .auto => "auto"
  | .flux => "flux"
  | .banana => "banana"
  | .imagen => "imagen"

/-- `SlideInput` (models.py lines 13-30).  Field-for-field translation:
`title`, `sources`, `image_keywords` (alias "ImageKeywords"), `bullets`,
`style` (a *list* of strings in the model), `image_mode`, `colors`,
`ai_model`.  Pydantic v2 with `ConfigDict(populate_by_name=True)` leaves
`extra` at its default `ignore`, so these are the only attributes an
instance has. -/
structure SlideInput where
  title : Option String := none
  sources : Option (List (List (String × String))) := none
  image_keywords : Option (List String) := none
  bullets : Option (List PyDict) := none
  style : Option (List String) := none
  image_mode : ImageMode := .auto
  colors : Option ColorConfig := none
  ai_model : AiModel := .auto

/-- The attribute names a `SlideInput` instance actually has (the declared
pydantic fields of models.py lines 18-30; the alias "ImageKeywords" is a
population alias, not an attribute). -/
def slideInputFields : List String :=
  ["title", "sources", "image_keywords", "bullets",
   "style", "image_mode", "colors", "ai_model"]

/-- Pydantic v2 attribute access `slide.unsplashSearchTerms`
(keyword_extractor.py lines 63, 64 and 97): `SlideInput` declares no such
field and `extra` is `ignore`, so the access raises `AttributeError`.
The `.ok` arm records the type the code expects the attribute to have;
it is unreachable because the field list does not contain the name. -/
def getattrUnsplashSearchTerms (_slide : SlideInput) :
    Except PyError (Option (List String)) :=
  if slideInputFields.contains "unsplashSearchTerms" then .ok none
  else .error .attributeError

/-- `KeywordExtractionResult` (models.py lines 33-41). -/
structure KeywordExtractionResult where
  skip : Bool := false
  topics_de : List String := []
  english_keywords : List String := []
  style : List String := []
  negative_keywords : List String := []
  constraints : List (String × Option String) := []
deriving Repr, DecidableEq

/-- `ImageRef` (models.py lines 44-54). -/
structure ImageRef where
  index : ℤ
  id : Option String
  alt : Option String
  regular_url : String
  full_url : String
  source : String
  photographer : Option String := none
  photographer_url : Option String := none
deriving Repr, DecidableEq

/-- `QualityScore` (models.py lines 57-63). -/
structure QualityScore where
  quality_score : ℚ
  presentation_score : Option ℚ := none
  is_safe : Bool := true
  nudity_score : Option ℚ := none
deriving Repr, DecidableEq

/-- `ScoredImage` (models.py lines 66-70). -/
structure ScoredImage where
  image_ref : ImageRef
  scores : QualityScore
deriving Repr, DecidableEq

/-- `ImageResult` (models.py lines 73-79). -/
structure ImageResult where
  url : String
  source : String
  keywords : String
  error : Option String := none
deriving Repr, DecidableEq

/-- The configurable thresholds and base URL of `src/config.py` (fields
the pipeline reads; API keys and model names are not part of the claims).
Defaults are config.py's defaults. -/
structure Config where
  min_presentation_score : ℚ := 6/10
  min_quality_score : ℚ := 7/10
  min_nudity_safe_score : ℚ := 99/100
  public_base_url : Option String := some "https://langchain.gurk.li"
deriving Repr, DecidableEq

/-! ## `src/image_search.py` — candidate aggregation (`search_all`) -/

/-- Outcomes of the two concurrent provider calls in `search_all`
(image_search.py lines 103-108): either the provider's normalized result
list or the exception its call raised (`asyncio.gather` with
`return_exceptions=True`). -/
structure SearchEnv where
  unsplash : Except PyError (List ImageRef)
  pexels : Except PyError (List ImageRef)

/-- Exception recovery of image_search.py lines 111-117: a failed
provider contributes an empty list. -/
def recoverSearch : Except PyError (List ImageRef) → List ImageRef
  | .ok l => l
  | .error _ => []

/-- The dedup key of image_search.py line 124:
`f"{result.source}:{result.id}" if result.id else result.full_url`
(a present-but-empty id is falsy, hence falls back to the full URL). -/
def dedupKey (r : ImageRef) : String :=
  match r.id with
  | some i => if i ≠ "" then r.source ++ ":" ++ i else r.full_url
  | none => r.full_url

/-- `result.index = len(all_results)` before appending (line 127). -/
def setIndex (r : ImageRef) (n : ℤ) : ImageRef := { r with index := n }

/-- The accumulation loop of image_search.py lines 123-128: `seen` is the
`seen_urls` set, `acc` the `all_results` list. -/
def dedupLoop : List ImageRef → List String → List ImageRef → List ImageRef
  | [], _, acc => acc
  | r :: rest, seen, acc =>
      let key := dedupKey r
      if key ∈ seen then dedupLoop rest seen acc
      else dedupLoop rest (key :: seen) (acc ++ [setIndex r acc.length])

/-- `search_all` (image_search.py lines 90-130): recover each provider,
concatenate in configured provider order (Unsplash then Pexels), then
dedup/reindex. -/
def search_all (env : SearchEnv) : List ImageRef :=
  dedupLoop (recoverSearch env.unsplash ++ recoverSearch env.pexels) [] []

/-- Specification-side dedup: keep the first-seen occurrence of every
dedup key, preserving order (spec §4.2). -/
def dedupFirstBy (key : ImageRef → String) : List ImageRef → List ImageRef
  | [] => []
  | x :: xs => x :: dedupFirstBy key (xs.filter (fun y => key y ≠ key x))
termination_by l => l.length
decreasing_by
  exact Nat.lt_succ_of_le (List.length_filter_le _ _)

/-- Specification-side reindexing: ordinal positions `n, n+1, ...` in
output order (spec §4.2: "reassigns ordinal positions 0..N-1"). -/
def reindexFrom (n : ℤ) : List ImageRef → List ImageRef
  | [] => []
  | x :: xs => setIndex x n :: reindexFrom (n + 1) xs

/-- The dedup key does not involve the (mutated) ordinal index. -/
theorem dedupKey_setIndex (r : ImageRef) (n : ℤ) :
    dedupKey (setIndex r n) = dedupKey r := rfl

/-- The accumulation loop of `search_all` computes first-seen dedup
followed by contiguous reindexing (generalized over the `seen` set and
the accumulator). -/
theorem dedupLoop_eq : ∀ (l : List ImageRef) (seen : List String) (acc : List ImageRef),
    dedupLoop l seen acc =
      acc ++ reindexFrom acc.length
        (dedupFirstBy dedupKey (l.filter (fun r => decide (dedupKey r ∉ seen))))
  | [], seen, acc => by simp [dedupLoop, reindexFrom, dedupFirstBy]
  | r :: rest, seen, acc => by
    by_cases h : dedupKey r ∈ seen
    · rw [show dedupLoop (r :: rest) seen acc = dedupLoop rest seen acc by
        simp [dedupLoop, h]]
      rw [dedupLoop_eq rest seen acc]
      simp [h]
    · rw [show dedupLoop (r :: rest) seen acc
          = dedupLoop rest (dedupKey r :: seen) (acc ++ [setIndex r acc.length]) by
        simp [dedupLoop, h]]
      rw [dedupLoop_eq rest (dedupKey r :: seen) (acc ++ [setIndex r acc.length])]
      have hfilter : rest.filter (fun y => decide (dedupKey y ∉ (dedupKey r :: seen)))
          = (rest.filter (fun y => decide (dedupKey y ∉ seen))).filter
              (fun y => decide (dedupKey y ≠ dedupKey r)) := by
        rw [List.filter_filter]
        apply List.filter_congr
        intro y _
        by_cases h1 : dedupKey y ∈ seen <;> by_cases h2 : dedupKey y = dedupKey r <;>
          simp [h1, h2]
      rw [hfilter]
      have hcons : (r :: rest).filter (fun y => decide (dedupKey y ∉ seen))
          = r :: rest.filter (fun y => decide (dedupKey y ∉ seen)) := by
        simp [h]
      rw [hcons]
      rw [show dedupFirstBy dedupKey (r :: rest.filter (fun y => decide (dedupKey y ∉ seen)))
          = r :: dedupFirstBy dedupKey
              ((rest.filter (fun y => decide (dedupKey y ∉ seen))).filter
                (fun y => decide (dedupKey y ≠ dedupKey r))) by
        rw [dedupFirstBy]]
      simp [reindexFrom, List.append_assoc]

/-- Element `i` of a reindexed list carries ordinal `n + i`. -/
theorem reindexFrom_get : ∀ (l : List ImageRef) (n : ℤ) (i : ℕ)
    (h : i < (reindexFrom n l).length),
    ((reindexFrom n l).get ⟨i, h⟩).index = n + i
  | x :: xs, n, 0, _ => by simp [reindexFrom, setIndex]
  | x :: xs, n, i + 1, h => by
    have h' : i < (reindexFrom (n + 1) xs).length := by
      simpa [reindexFrom] using h
    have hstep : ((reindexFrom n (x :: xs)).get ⟨i + 1, h⟩)
        = (reindexFrom (n + 1) xs).get ⟨i, h'⟩ := rfl
    rw [hstep, reindexFrom_get xs (n + 1) i h']
    push_cast; ring

/-- Reindexing does not change the dedup keys. -/
theorem map_dedupKey_reindexFrom : ∀ (l : List ImageRef) (n : ℤ),
    (reindexFrom n l).map dedupKey = l.map dedupKey
  | [], _ => rfl
  | x :: xs, n => by
    simp [reindexFrom, dedupKey_setIndex, map_dedupKey_reindexFrom xs (n + 1)]

/-- An element surviving first-seen dedup comes from the input list. -/
theorem mem_of_mem_dedupFirstBy : ∀ (l : List ImageRef) (y : ImageRef),
    y ∈ dedupFirstBy dedupKey l → y ∈ l
  | [], y, h => by simp [dedupFirstBy] at h
  | x :: xs, y, h => by
    rw [dedupFirstBy] at h
    rcases List.mem_cons.mp h with h | h
    · exact h ▸ List.mem_cons_self x xs
    · exact List.mem_cons_of_mem x
        (List.mem_of_mem_filter (mem_of_mem_dedupFirstBy _ y h))
termination_by l => l.length
decreasing_by
  exact Nat.lt_succ_of_le (List.length_filter_le _ _)

/-- First-seen dedup leaves pairwise-distinct keys. -/
theorem dedupFirstBy_keys_nodup : ∀ (l : List ImageRef),
    ((dedupFirstBy dedupKey l).map dedupKey).Nodup
  | [] => by simp [dedupFirstBy]
  | x :: xs => by
    rw [dedupFirstBy]
    simp only [List.map_cons, List.nodup_cons]
    constructor
    · intro hmem
      obtain ⟨y, hy, hkey⟩ := List.mem_map.mp hmem
      have hy' := mem_of_mem_dedupFirstBy _ y hy
      have hne := (List.mem_filter.mp hy').2
      simp only [decide_eq_true_eq] at hne
      exact hne hkey
    · exact dedupFirstBy_keys_nodup _
termination_by l => l.length
decreasing_by
  exact Nat.lt_succ_of_le (List.length_filter_le _ _)

/-- C8: for every pair of provider outcomes (a failed or erroring provider
contributing zero candidates), `search_all` returns the providers'
candidates merged in configured provider order (Unsplash before Pexels)
with duplicates removed by the key "provider:ID" when an ID is present
and by full URL otherwise, keeping the first-seen occurrence; the `index`
fields are reassigned contiguously to `0..N-1` in output order, the
surviving dedup keys are pairwise distinct, and when every provider fails
or returns nothing the result is the empty list, not an error. -/
theorem C8_search_all_merge_dedup_reindex (env : SearchEnv) :
    search_all env =
      reindexFrom 0 (dedupFirstBy dedupKey
        (recoverSearch env.unsplash ++ recoverSearch env.pexels)) ∧
    (∀ i : ℕ, ∀ h : i < (search_all env).length,
      ((search_all env).get ⟨i, h⟩).index = i) ∧
    ((search_all env).map dedupKey).Nodup ∧
    ((recoverSearch env.unsplash = [] ∧ recoverSearch env.pexels = []) →
      search_all env = []) := by
  have hmain : search_all env =
      reindexFrom 0 (dedupFirstBy dedupKey
        (recoverSearch env.unsplash ++ recoverSearch env.pexels)) := by
    rw [search_all, dedupLoop_eq]
    simp
  refine ⟨hmain, ?_, ?_, ?_⟩
  · intro i
    rw [hmain]
    intro h
    simpa using reindexFrom_get _ 0 i h
  · rw [hmain, map_dedupKey_reindexFrom]
    exact dedupFirstBy_keys_nodup _
  · rintro ⟨h1, h2⟩
    rw [hmain, h1, h2]
    simp [dedupFirstBy, reindexFrom]

/-- Witness for C8: two concretely failing/empty providers produce the
empty candidate list. -/
theorem C8_witness :
    search_all ⟨.error (.exc "Unsplash search failed"), .ok []⟩ = [] :=
  (C8_search_all_merge_dedup_reindex
    ⟨.error (.exc "Unsplash search failed"), .ok []⟩).2.2.2 ⟨rfl, rfl⟩

/-! ## `src/generated_cache.py` — artifact cache

Strings handled character-by-character here (`List Char`), since
`store_data_url` parses its input.  `uuid.uuid4().hex` is modelled as a
fresh-counter ID supply; `_STORE[image_id] = ...` is an insertion at the
front of an association list read front-first, which matches Python dict
assignment-then-lookup behaviour. -/

/-- `CachedImage` (generated_cache.py lines 9-13): bytes are naturals
(each < 256 by construction of the decoder). -/
structure CachedImage where
  data : List ℕ
  media_type : List Char
deriving Repr, DecidableEq

/-- The module-level `_STORE` plus the modelled uuid supply. -/
structure CacheStore where
  entries : List (String × CachedImage) := []
  counter : ℕ := 0
deriving Repr, DecidableEq

/-- Models `uuid.uuid4().hex` (generated_cache.py line 48). -/
def freshId (st : CacheStore) : String := "uuid" ++ toString st.counter

/-- Value of a base64-alphabet character (`A-Z a-z 0-9 + /`). -/
def b64Index (c : Char) : Option ℕ :=
  if 'A' ≤ c ∧ c ≤ 'Z' then some (c.toNat - 'A'.toNat)
  else if 'a' ≤ c ∧ c ≤ 'z' then some (c.toNat - 'a'.toNat + 26)
  else if '0' ≤ c ∧ c ≤ '9' then some (c.toNat - '0'.toNat + 52)
  else if c = '+' then some 62
  else if c = '/' then some 63
  else none

/-- `base64.b64decode` (generated_cache.py line 44) on canonical base64:
four-character groups over the standard alphabet, `=` padding only in the
final group.  (Python's leniencies — discarding of non-alphabet
characters, text after a padding group — are not modelled; the round-trip
claim quantifies over valid payloads only.)  `none` models
`binascii.Error`. -/
def b64decode : List Char → Option (List ℕ)
  | [] => some []
  | a :: b :: c :: d :: rest =>
    match b64Index a, b64Index b with
    | some x, some y =>
      if c = '=' then
        if d = '=' ∧ rest = [] then some [x * 4 + y / 16] else none
      else
        match b64Index c with
        | some z =>
          if d = '=' then
            if rest = [] then some [x * 4 + y / 16, (y % 16) * 16 + z / 4] else none
          else
            match b64Index d with
            | some w => (b64decode rest).map
                (fun tail => (x * 4 + y / 16) :: ((y % 16) * 16 + z / 4) ::
                  ((z % 4) * 64 + w) :: tail)
            | none => none
        | none => none
    | _, _ => none
  | _ => none

/-- `store_data_url` (generated_cache.py lines 20-50), on the character
list of the data URL. -/
def store_data_url (st : CacheStore) (data_url : List Char) :
    Except PyError (String × CacheStore) := do
  if ¬ ("data:".toList.isPrefixOf data_url) then
    throw (.exc "Not a data URL")
  if ¬ (',' ∈ data_url) then
    throw (.exc "Invalid data URL format")
  -- `data_url.split(",", 1)`
  let header := data_url.takeWhile (fun c => c ≠ ',')
  let b64_data := (data_url.dropWhile (fun c => c ≠ ',')).drop 1
  let defaultType := "application/octet-stream".toList
  let media_type :=
    if ';' ∈ header then
      -- `header.split(";")[0][5:] or media_type`
      let m := (header.takeWhile (fun c => c ≠ ';')).drop 5
      if m = [] then defaultType else m
    else if "data:".toList.isPrefixOf header then
      -- `header[5:] or media_type`
      let m := header.drop 5
      if m = [] then defaultType else m
    else defaultType
  match b64decode b64_data with
  | none => throw (.exc "Invalid base64 data")
  | some data_bytes =>
    let image_id := freshId st
    .ok (image_id,
      { entries := (image_id, ⟨data_bytes, media_type⟩) :: st.entries,
        counter := st.counter + 1 })

/-- `get_image` (generated_cache.py lines 53-55). -/
def get_image (st : CacheStore) (image_id : String) : Option CachedImage :=
  (st.entries.find? (fun p => p.1 = image_id)).map (fun p => p.2)

/-- `store_bytes` (generated_cache.py lines 58-71). -/
def store_bytes (st : CacheStore) (data : List ℕ) (media_type : List Char) :
    String × CacheStore :=
  let image_id := freshId st
  (image_id,
    { entries := (image_id, ⟨data, if media_type = [] then
        "application/octet-stream".toList else media_type⟩) :: st.entries,
      counter := st.counter + 1 })

/-- A list is a `isPrefixOf` of itself followed by anything. -/
theorem isPrefixOf_append_self : ∀ (p q : List Char), p.isPrefixOf (p ++ q) = true
  | [], _ => by simp [List.isPrefixOf]
  | c :: p, q => by simp [List.isPrefixOf, isPrefixOf_append_self p q]

/-- `takeWhile`/`dropWhile` split a list at the first failing element. -/
theorem takeWhile_append_stop (p : Char → Bool) :
    ∀ (pre : List Char) (c : Char) (suf : List Char),
    (∀ a ∈ pre, p a = true) → p c = false →
    ((pre ++ c :: suf).takeWhile p = pre ∧ (pre ++ c :: suf).dropWhile p = c :: suf)
  | [], c, suf, _, hc => by simp [List.takeWhile_cons, List.dropWhile_cons, hc]
  | a :: pre, c, suf, hpre, hc => by
    have ha : p a = true := hpre a (List.mem_cons_self a pre)
    have ih := takeWhile_append_stop p pre c suf
      (fun x hx => hpre x (List.mem_cons_of_mem a hx)) hc
    simp [List.takeWhile_cons, List.dropWhile_cons, ha, ih.1, ih.2]

/-- C9: storing `"data:" ++ m ++ ";base64," ++ X` for a well-formed media
type `m` (nonempty, no `,`/`;` — as any MIME type token) and a valid
base64 payload `X` succeeds, and retrieving the returned ID yields
exactly the base64 decoding of `X` and media type `m`. -/
theorem C9_store_data_url_roundtrip (m X : List Char) (st : CacheStore)
    (bytes : List ℕ) (hm : m ≠ []) (hmc : ',' ∉ m) (hms : ';' ∉ m)
    (hX : b64decode X = some bytes) :
    ∃ image_id st2,
      store_data_url st ("data:".toList ++ m ++ ";base64,".toList ++ X)
        = .ok (image_id, st2) ∧
      get_image st2 image_id = some ⟨bytes, m⟩ := by
  set url := "data:".toList ++ m ++ ";base64,".toList ++ X with hurl
  have hsplit : url = ("data:".toList ++ m ++ ";base64".toList) ++ (',' :: X) := by
    rw [hurl, show ";base64,".toList = ";base64".toList ++ [','] from rfl]
    simp
  have hdc : ∀ a ∈ "data:".toList, a ≠ ',' := by decide
  have hbc : ∀ a ∈ ";base64".toList, a ≠ ',' := by decide
  have hnocomma : ∀ a ∈ "data:".toList ++ m ++ ";base64".toList,
      (decide (a ≠ ',')) = true := by
    intro a ha
    simp only [List.append_assoc, List.mem_append] at ha
    simp only [decide_eq_true_eq]
    rcases ha with ha | ha | ha
    · exact hdc a ha
    · intro hcon; exact hmc (hcon ▸ ha)
    · exact hbc a ha
  have hsplitcomma := takeWhile_append_stop (fun c => decide (c ≠ ','))
    ("data:".toList ++ m ++ ";base64".toList) ',' X hnocomma (by decide)
  have hheader : url.takeWhile (fun c => decide (c ≠ ','))
      = "data:".toList ++ m ++ ";base64".toList := by
    rw [hsplit]; exact hsplitcomma.1
  have hrest : (url.dropWhile (fun c => decide (c ≠ ','))).drop 1 = X := by
    rw [hsplit, hsplitcomma.2]; rfl
  have hpre : "data:".toList.isPrefixOf url = true := by
    rw [hurl, List.append_assoc, List.append_assoc]
    exact isPrefixOf_append_self "data:".toList (m ++ (";base64,".toList ++ X))
  have hmemc : ',' ∈ url := by
    rw [hsplit]; exact List.mem_append_right _ (List.mem_cons_self _ _)
  have hheadersplit : "data:".toList ++ m ++ ";base64".toList
      = ("data:".toList ++ m) ++ (';' :: "base64".toList) := by
    simp [show ";base64".toList = ';' :: "base64".toList from rfl]
  have hds : ∀ a ∈ "data:".toList, a ≠ ';' := by decide
  have hnosemi : ∀ a ∈ "data:".toList ++ m, (decide (a ≠ ';')) = true := by
    intro a ha
    simp only [List.mem_append] at ha
    simp only [decide_eq_true_eq]
    rcases ha with ha | ha
    · exact hds a ha
    · intro hcon; exact hms (hcon ▸ ha)
  have hsplitsemi := takeWhile_append_stop (fun c => decide (c ≠ ';'))
    ("data:".toList ++ m) ';' "base64".toList hnosemi (by decide)
  have hmems : ';' ∈ "data:".toList ++ m ++ ";base64".toList := by
    rw [hheadersplit]
    exact List.mem_append_right _ (List.mem_cons_self _ _)
  have hdrop : (("data:".toList ++ m).drop 5) = m := by
    exact List.drop_left "data:".toList m
  refine ⟨freshId st,
    { entries := (freshId st, ⟨bytes, m⟩) :: st.entries,
      counter := st.counter + 1 }, ?_, ?_⟩
  · rw [store_data_url]
    rw [if_neg (not_not_intro hpre)]
    rw [if_neg (not_not_intro hmemc)]
    simp only [hheader, hrest, hX]
    rw [if_pos hmems]
    rw [hheadersplit, hsplitsemi.1, hdrop, if_neg hm]
    rfl
  · simp [get_image, List.find?]

/-- Witness for C9: media type `image/png`, payload `"aGk="` (decoding to
the two bytes of "hi"), starting from the empty store. -/
theorem C9_witness :
    ∃ image_id st2,
      store_data_url {} ("data:".toList ++ "image/png".toList
          ++ ";base64,".toList ++ "aGk=".toList)
        = .ok (image_id, st2) ∧
      get_image st2 image_id = some ⟨[104, 105], "image/png".toList⟩ :=
  C9_store_data_url_roundtrip "image/png".toList "aGk=".toList {} [104, 105]
    (by decide) (by decide) (by decide) (by decide)

/-! ## `src/image_scorer.py` — safety-score normalization
(`extract_nudity_safe_score`, lines 163-228) -/

/-- Digit-string to natural value. -/
def digitsToNat (l : List Char) : ℕ :=
  l.foldl (fun acc c => acc * 10 + (c.toNat - '0'.toNat)) 0

/-- Unsigned decimal literal (`"12"`, `"1.5"`, `".5"`, `"5."`). -/
def parseUnsigned (s : List Char) : Option ℚ :=
  let ip := s.takeWhile (fun c => c ≠ '.')
  match s.dropWhile (fun c => c ≠ '.') with
  | [] =>
    if ip ≠ [] ∧ ip.all Char.isDigit then some (digitsToNat ip) else none
  | _ :: fp =>
    if (ip ≠ [] ∨ fp ≠ []) ∧ ip.all Char.isDigit ∧ fp.all Char.isDigit then
      some ((digitsToNat ip : ℚ) + (digitsToNat fp : ℚ) / (10 ^ fp.length))
    else none

/-- Python `float(s)` on a decimal string literal (sign + digits + optional
fraction).  Exponent, `inf`/`nan` and surrounding-whitespace forms are not
modelled; no provider shape or claim exercises them. -/
def pyFloatOfString (s : List Char) : Option ℚ :=
  match s with
  | '+' :: rest => parseUnsigned rest
  | '-' :: rest => (parseUnsigned rest).map (fun q => -q)
  | _ => parseUnsigned s

/-- `clamp` (image_scorer.py lines 170-175): `float(value)` clipped to
`[0,1]`; `none` models the caught `TypeError`/`ValueError` (also used for
an absent key, where `.get` returned Python `None`).  `float` accepts
numbers, booleans (`float(True) = 1.0`) and decimal string literals. -/
def clamp : Option PyVal → Option ℚ
  | none => none
  | some .pnone => none
  | some (.pbool b) => some (max 0 (min 1 (if b then 1 else 0)))
  | some (.pnum q) => some (max 0 (min 1 q))
  | some (.pstr s) => (pyFloatOfString s.toList).map (fun q => max 0 (min 1 q))
  | some (.plist _) => none
  | some (.pdict _) => none

/-- `d.get(k, {})`: present value, else empty dict default. -/
def pyGetOrEmpty (d : PyDict) (k : String) : PyVal :=
  match PyDict.get d k with
  | some v => v
  | none => .pdict []

/-- Legacy SightEngine lookup (image_scorer.py lines 220-228):
`nudity_data.get("suggestive_classes", {}).get("cleavage_categories",
{}).get("none")`, clamped, else 1.0.  A non-dict under either key makes
the chained `.get` raise `AttributeError` (uncaught in this function). -/
def nudityLegacy (d : PyDict) : Except PyError ℚ :=
  match pyGetOrEmpty d "suggestive_classes" with
  | .pdict ad =>
    match pyGetOrEmpty ad "cleavage_categories" with
    | .pdict bd =>
      match clamp (PyDict.get bd "none") with
      | some c => .ok c
      | none => .ok 1
    | _ => .error .attributeError
  | _ => .error .attributeError

/-- Label+score step (image_scorer.py lines 211-218), falling through to
the legacy lookup. -/
def nudityLabelStep (d : PyDict) : Except PyError ℚ :=
  match PyDict.get d "label", clamp (PyDict.get d "score") with
  | some (.pstr label), some c =>
    let ll := label.toLower
    if ll = "nsfw" ∨ ll = "unsafe" ∨ ll = "porn" then .ok (1 - c)
    else if ll = "sfw" ∨ ll = "safe" then .ok c
    else nudityLegacy d
  | _, _ => nudityLegacy d

/-- Boolean `unsafe` flag step (image_scorer.py lines 207-209). -/
def nudityUnsafeStep (d : PyDict) : Except PyError ℚ :=
  match PyDict.get d "unsafe" with
  | some (.pbool b) => .ok (if b then 0 else 1)
  | _ => nudityLabelStep d

/-- Boolean `nsfw` flag step (image_scorer.py lines 203-205), head of the
flags/label/legacy tail. -/
def nudityFlagsLabel (d : PyDict) : Except PyError ℚ :=
  match PyDict.get d "nsfw" with
  | some (.pbool b) => .ok (if b then 0 else 1)
  | _ => nudityUnsafeStep d

/-- Scalar (non-recursive) steps of `extract_nudity_safe_score`
(image_scorer.py lines 188-228): explicit safe-probability fields, the
boolean `safe` flag, `nsfw_score` inversion, then flags/label/legacy. -/
def extractNudityScalar (d : PyDict) : Except PyError ℚ :=
  match clamp (d.get "safe_score") with
  | some c => .ok c
  | none =>
  match clamp (d.get "safe_prob") with
  | some c => .ok c
  | none =>
  match clamp (d.get "safe_probability") with
  | some c => .ok c
  | none =>
  match d.get "safe" with
  | some (.pbool b) => .ok (if b then 1 else 0)
  | _ =>
  match d.get "nsfw_score" with
  | some v =>
    (match clamp (some v) with
     | some c => .ok (1 - c)
     | none => nudityFlagsLabel d)
  | none => nudityFlagsLabel d

/-- A dict value obtained by `PyDict.get` is structurally smaller than the
dict (for the recursion of `extract_nudity_safe_score`). -/
theorem sizeOf_get_lt {d : PyDict} {k : String} {v : PyVal}
    (h : PyDict.get d k = some v) : sizeOf v < sizeOf d := by
  unfold PyDict.get at h
  cases hf : d.find? (fun p => p.1 = k) with
  | none => rw [hf] at h; cases h
  | some p =>
    rw [hf] at h
    have hv : p.2 = v := by simpa using h
    subst hv
    have hm := List.mem_of_find?_eq_some hf
    have h1 : sizeOf p < sizeOf d := List.sizeOf_lt_of_mem hm
    have h2 : sizeOf p.2 < sizeOf p := by
      cases p with
      | mk a b =>
        have hab : sizeOf ((a, b) : String × PyVal) = 1 + sizeOf a + sizeOf b := rfl
        simp only [hab]
        have : 0 ≤ sizeOf a := Nat.zero_le _
        omega
    omega

/-- `extract_nudity_safe_score` (image_scorer.py lines 163-228): empty
dict is fully safe; a dict-shaped `result` wrapper recurses; a nonempty
`predictions` list with a dict head recurses; otherwise the scalar
decision chain runs. -/
def extract_nudity_safe_score (d : PyDict) : Except PyError ℚ :=
  if d.isEmpty then .ok 1
  else
    match hres : PyDict.get d "result" with
    | some (.pdict nested) => extract_nudity_safe_score nested
    | _ =>
      match hpred : PyDict.get d "predictions" with
      | some (.plist (.pdict fd :: rest)) => extract_nudity_safe_score fd
      | _ => extractNudityScalar d
termination_by sizeOf d
decreasing_by
  · have h := sizeOf_get_lt hres
    simp [PyVal.pdict.sizeOf_spec] at h
    omega
  · have h := sizeOf_get_lt hpred
    simp [PyVal.plist.sizeOf_spec, PyVal.pdict.sizeOf_spec] at h
    omega

/-- First recognized value of a precedence-ordered rule list. -/
def firstSome : List (Option ℚ) → Option ℚ
  | [] => none
  | some x :: _ => some x
  | none :: rest => firstSome rest

/-- Spec step: explicit safe-probability fields
(`safe_score`/`safe_prob`/`safe_probability`, first clampable wins). -/
def ruleExplicitSafe (d : PyDict) : Option ℚ :=
  match clamp (PyDict.get d "safe_score") with
  | some c => some c
  | none =>
    match clamp (PyDict.get d "safe_prob") with
    | some c => some c
    | none => clamp (PyDict.get d "safe_probability")

/-- Spec step: boolean `safe` flag. -/
def ruleSafeFlag (d : PyDict) : Option ℚ :=
  match PyDict.get d "safe" with
  | some (.pbool b) => some (if b then 1 else 0)
  | _ => none

/-- Spec step: inversion of a (clampable) `nsfw_score`. -/
def ruleNsfwScore (d : PyDict) : Option ℚ :=
  match PyDict.get d "nsfw_score" with
  | some v => (clamp (some v)).map (fun c => 1 - c)
  | none => none

/-- Spec step: boolean `nsfw` flag. -/
def ruleNsfwFlag (d : PyDict) : Option ℚ :=
  match PyDict.get d "nsfw" with
  | some (.pbool b) => some (if b then 0 else 1)
  | _ => none

/-- Spec step: boolean `unsafe` flag. -/
def ruleNotSafeFlag (d : PyDict) : Option ℚ :=
  match PyDict.get d "unsafe" with
  | some (.pbool b) => some (if b then 0 else 1)
  | _ => none

/-- Spec step: label+score pair. -/
def ruleLabelScore (d : PyDict) : Option ℚ :=
  match PyDict.get d "label", clamp (PyDict.get d "score") with
  | some (.pstr label), some c =>
    let ll := label.toLower
    if ll = "nsfw" ∨ ll = "unsafe" ∨ ll = "porn" then some (1 - c)
    else if ll = "sfw" ∨ ll = "safe" then some c
    else none
  | _, _ => none

/-- Spec step: legacy nested category-probability structure
(`suggestive_classes.cleavage_categories.none`), recognized only when the
nesting is well-shaped. -/
def ruleLegacy (d : PyDict) : Option ℚ :=
  match PyDict.get d "suggestive_classes" with
  | some (.pdict sc) =>
    match PyDict.get sc "cleavage_categories" with
    | some (.pdict cc) => clamp (PyDict.get cc "none")
    | _ => none
  | _ => none

/-- The safety-score derivation exactly as claim C5 states it: the
precedence-ordered decision table nested result → predictions[0] →
explicit safe fields → safe flag → nsfw-score inversion → nsfw/unsafe
flags → label+score → legacy nested structure → default 1.0 (fully safe)
when nothing is recognized. -/
def safeScoreClaim (d : PyDict) : ℚ :=
  match hres : PyDict.get d "result" with
  | some (.pdict nested) => safeScoreClaim nested
  | _ =>
    match hpred : PyDict.get d "predictions" with
    | some (.plist (.pdict fd :: rest)) => safeScoreClaim fd
    | _ =>
      (firstSome [ruleExplicitSafe d, ruleSafeFlag d, ruleNsfwScore d,
        ruleNsfwFlag d, ruleNotSafeFlag d, ruleLabelScore d,
        ruleLegacy d]).getD 1
termination_by sizeOf d
decreasing_by
  · have h := sizeOf_get_lt hres
    simp [PyVal.pdict.sizeOf_spec] at h
    omega
  · have h := sizeOf_get_lt hpred
    simp [PyVal.plist.sizeOf_spec, PyVal.pdict.sizeOf_spec] at h
    omega

/-- The amended scalar chain: as claimed, except that a non-dict value
under `suggestive_classes` (or under `cleavage_categories` inside it)
makes the legacy step raise `AttributeError` instead of defaulting. -/
def amendedScalar (d : PyDict) : Except PyError ℚ :=
  match firstSome [ruleExplicitSafe d, ruleSafeFlag d, ruleNsfwScore d,
      ruleNsfwFlag d, ruleNotSafeFlag d, ruleLabelScore d] with
  | some c => .ok c
  | none =>
    match PyDict.get d "suggestive_classes" with
    | none => .ok 1
    | some (.pdict sc) =>
      match PyDict.get sc "cleavage_categories" with
      | none => .ok 1
      | some (.pdict cc) => .ok ((clamp (PyDict.get cc "none")).getD 1)
      | some _ => .error .attributeError
    | some _ => .error .attributeError

/-- The safety-score derivation as amended by claim C5's counterexample:
the claimed precedence order, with the legacy step raising
`AttributeError` on a malformed (non-dict) nesting rather than
defaulting to fully safe. -/
def safeScoreAmended (d : PyDict) : Except PyError ℚ :=
  match hres : PyDict.get d "result" with
  | some (.pdict nested) => safeScoreAmended nested
  | _ =>
    match hpred : PyDict.get d "predictions" with
    | some (.plist (.pdict fd :: rest)) => safeScoreAmended fd
    | _ => amendedScalar d
termination_by sizeOf d
decreasing_by
  · have h := sizeOf_get_lt hres
    simp [PyVal.pdict.sizeOf_spec] at h
    omega
  · have h := sizeOf_get_lt hpred
    simp [PyVal.plist.sizeOf_spec, PyVal.pdict.sizeOf_spec] at h
    omega

/-- The legacy lookup, restated as a shape match. -/
theorem nudityLegacy_eq (d : PyDict) :
    nudityLegacy d = (match PyDict.get d "suggestive_classes" with
      | none => .ok 1
      | some (.pdict sc) =>
        match PyDict.get sc "cleavage_categories" with
        | none => .ok 1
        | some (.pdict cc) => .ok ((clamp (PyDict.get cc "none")).getD 1)
        | some _ => .error .attributeError
      | some _ => .error .attributeError) := by
  unfold nudityLegacy
  cases hs : PyDict.get d "suggestive_classes" with
  | none =>
    rw [show pyGetOrEmpty d "suggestive_classes" = .pdict [] by
      simp [pyGetOrEmpty, hs]]
    rfl
  | some v =>
    cases v with
    | pdict sc =>
      rw [show pyGetOrEmpty d "suggestive_classes" = .pdict sc by
        simp [pyGetOrEmpty, hs]]
      show (match pyGetOrEmpty sc "cleavage_categories" with
        | PyVal.pdict bd =>
          match clamp (PyDict.get bd "none") with
          | some c => Except.ok c
          | none => Except.ok 1
        | _ => Except.error PyError.attributeError)
        = (match PyDict.get sc "cleavage_categories" with
          | none => Except.ok 1
          | some (.pdict cc) => Except.ok ((clamp (PyDict.get cc "none")).getD 1)
          | some _ => Except.error PyError.attributeError)
      cases hc : PyDict.get sc "cleavage_categories" with
      | none =>
        rw [show pyGetOrEmpty sc "cleavage_categories" = .pdict [] by
          simp [pyGetOrEmpty, hc]]
        rfl
      | some w =>
        rw [show pyGetOrEmpty sc "cleavage_categories" = w by
          simp [pyGetOrEmpty, hc]]
        cases w with
        | pdict cc =>
          show (match clamp (PyDict.get cc "none") with
            | some c => Except.ok c
            | none => Except.ok 1) = _
          cases hn : clamp (PyDict.get cc "none") with
          | none => simp [hn]
          | some c => simp [hn]
        | pnone => rfl
        | pbool b => rfl
        | pnum q => rfl
        | pstr s => rfl
        | plist xs => rfl
    | pnone =>
      rw [show pyGetOrEmpty d "suggestive_classes" = .pnone by
        simp [pyGetOrEmpty, hs]]
    | pbool b =>
      rw [show pyGetOrEmpty d "suggestive_classes" = .pbool b by
        simp [pyGetOrEmpty, hs]]
    | pnum q =>
      rw [show pyGetOrEmpty d "suggestive_classes" = .pnum q by
        simp [pyGetOrEmpty, hs]]
    | pstr s =>
      rw [show pyGetOrEmpty d "suggestive_classes" = .pstr s by
        simp [pyGetOrEmpty, hs]]
    | plist xs =>
      rw [show pyGetOrEmpty d "suggestive_classes" = .plist xs by
        simp [pyGetOrEmpty, hs]]

/-- `firstSome` over a singleton. -/
theorem firstSome_single (x : Option ℚ) : firstSome [x] = x := by
  cases x <;> rfl

/-- An unrecognized shape passes precedence on. -/
theorem firstSome_none_cons (l : List (Option ℚ)) :
    firstSome (none :: l) = firstSome l := rfl

/-- A recognized shape wins. -/
theorem firstSome_some_cons (x : ℚ) (l : List (Option ℚ)) :
    firstSome (some x :: l) = some x := rfl

/-- The label+score step equals its precedence rule over the legacy step. -/
theorem nudityLabelStep_eq (d : PyDict) :
    nudityLabelStep d =
      (match ruleLabelScore d with
       | some c => Except.ok c
       | none => nudityLegacy d) := by
  unfold nudityLabelStep ruleLabelScore
  cases hl : PyDict.get d "label" with
  | none =>
    cases hc : clamp (PyDict.get d "score") <;> rfl
  | some v =>
    cases hc : clamp (PyDict.get d "score") with
    | none => cases v <;> rfl
    | some c =>
      cases v with
      | pstr label =>
        by_cases hb : label.toLower = "nsfw" ∨ label.toLower = "unsafe"
            ∨ label.toLower = "porn"
        · simp [hb]
        · by_cases hg : label.toLower = "sfw" ∨ label.toLower = "safe"
          · simp [hb, hg]
          · simp [hb, hg]
      | pnone => rfl
      | pbool b => rfl
      | pnum q => rfl
      | plist xs => rfl
      | pdict dd => rfl

/-- The `unsafe`-flag step equals its precedence rule over the tail. -/
theorem nudityUnsafeStep_eq (d : PyDict) :
    nudityUnsafeStep d =
      (match firstSome [ruleNotSafeFlag d, ruleLabelScore d] with
       | some c => Except.ok c
       | none => nudityLegacy d) := by
  have htail : nudityLabelStep d =
      (match firstSome [ruleLabelScore d] with
       | some c => Except.ok c
       | none => nudityLegacy d) := by
    rw [nudityLabelStep_eq d, firstSome_single]
  unfold nudityUnsafeStep ruleNotSafeFlag
  cases h2 : PyDict.get d "unsafe" with
  | none => rw [htail]; rfl
  | some w =>
    cases w with
    | pbool b => simp [firstSome]
    | pnone => rw [htail]; rfl
    | pnum q => rw [htail]; rfl
    | pstr s => rw [htail]; rfl
    | plist xs => rw [htail]; rfl
    | pdict dd => rw [htail]; rfl

/-- The boolean-flags / label+score tail of the scalar chain equals the
corresponding precedence rules followed by the legacy step. -/
theorem nudityFlagsLabel_eq (d : PyDict) :
    nudityFlagsLabel d =
      (match firstSome [ruleNsfwFlag d, ruleNotSafeFlag d, ruleLabelScore d] with
       | some c => Except.ok c
       | none => nudityLegacy d) := by
  have htail := nudityUnsafeStep_eq d
  unfold nudityFlagsLabel ruleNsfwFlag
  cases h1 : PyDict.get d "nsfw" with
  | none => rw [htail]; rfl
  | some w =>
    cases w with
    | pbool b => simp [firstSome]
    | pnone => rw [htail]; rfl
    | pnum q => rw [htail]; rfl
    | pstr s => rw [htail]; rfl
    | plist xs => rw [htail]; rfl
    | pdict dd => rw [htail]; rfl

/-- The `nsfw_score` step with its flags/label/legacy tail equals the
corresponding rule suffix of the precedence table. -/
theorem nsfwScoreTail_eq (d : PyDict) :
    (match PyDict.get d "nsfw_score" with
      | some v =>
        (match clamp (some v) with
         | some c => Except.ok (1 - c)
         | none => nudityFlagsLabel d)
      | none => nudityFlagsLabel d)
    = (match firstSome [ruleNsfwScore d, ruleNsfwFlag d, ruleNotSafeFlag d,
        ruleLabelScore d] with
       | some c => Except.ok c
       | none => nudityLegacy d) := by
  unfold ruleNsfwScore
  cases hn : PyDict.get d "nsfw_score" with
  | none =>
    rw [nudityFlagsLabel_eq d]
    rfl
  | some v =>
    show (match clamp (some v) with
        | some c => Except.ok (1 - c)
        | none => nudityFlagsLabel d)
      = (match firstSome [Option.map (fun c => 1 - c) (clamp (some v)),
          ruleNsfwFlag d, ruleNotSafeFlag d, ruleLabelScore d] with
         | some c => Except.ok c
         | none => nudityLegacy d)
    cases hc : clamp (some v) with
    | some c => simp [firstSome]
    | none =>
      rw [nudityFlagsLabel_eq d]
      rfl

/-- The scalar chain of the code equals the amended precedence table. -/
theorem extractNudityScalar_eq (d : PyDict) :
    extractNudityScalar d = amendedScalar d := by
  have hlegacy : nudityLegacy d =
      (match PyDict.get d "suggestive_classes" with
        | none => Except.ok 1
        | some (.pdict sc) =>
          match PyDict.get sc "cleavage_categories" with
          | none => Except.ok 1
          | some (.pdict cc) => Except.ok ((clamp (PyDict.get cc "none")).getD 1)
          | some _ => Except.error .attributeError
        | some _ => Except.error .attributeError) := nudityLegacy_eq d
  unfold extractNudityScalar amendedScalar ruleExplicitSafe
  cases h1 : clamp (PyDict.get d "safe_score") with
  | some c => simp [firstSome]
  | none =>
    cases h2 : clamp (PyDict.get d "safe_prob") with
    | some c => simp [firstSome]
    | none =>
      cases h3 : clamp (PyDict.get d "safe_probability") with
      | some c => simp [firstSome]
      | none =>
        show (match PyDict.get d "safe" with
          | some (.pbool b) => Except.ok (if b then 1 else 0)
          | _ =>
            match PyDict.get d "nsfw_score" with
            | some v =>
              (match clamp (some v) with
               | some c => Except.ok (1 - c)
               | none => nudityFlagsLabel d)
            | none => nudityFlagsLabel d) = _
        rw [show firstSome [none, ruleSafeFlag d, ruleNsfwScore d,
            ruleNsfwFlag d, ruleNotSafeFlag d, ruleLabelScore d]
          = firstSome [ruleSafeFlag d, ruleNsfwScore d,
            ruleNsfwFlag d, ruleNotSafeFlag d, ruleLabelScore d] from rfl]
        unfold ruleSafeFlag
        cases h4 : PyDict.get d "safe" with
        | some v =>
          cases v with
          | pbool b => simp [firstSome]
          | pnone => rw [nsfwScoreTail_eq d, hlegacy]; rfl
          | pnum q => rw [nsfwScoreTail_eq d, hlegacy]; rfl
          | pstr s => rw [nsfwScoreTail_eq d, hlegacy]; rfl
          | plist xs => rw [nsfwScoreTail_eq d, hlegacy]; rfl
          | pdict dd => rw [nsfwScoreTail_eq d, hlegacy]; rfl
        | none => rw [nsfwScoreTail_eq d, hlegacy]; rfl
/-- The code's `extract_nudity_safe_score` equals the amended precedence
table on every response dict. -/
theorem nudity_code_eq_amended (d : PyDict) :
    extract_nudity_safe_score d = safeScoreAmended d := by
  induction d using extract_nudity_safe_score.induct with
  | case1 d hd =>
    have hnil : d = [] := by
      cases d with
      | nil => rfl
      | cons a l => simp at hd
    subst hnil
    rw [extract_nudity_safe_score, safeScoreAmended]
    rfl
  | case2 d hd nested hres ih =>
    rw [extract_nudity_safe_score, safeScoreAmended]
    rw [if_neg hd]
    split
    next nested2 heq =>
      rw [hres] at heq
      injection heq with heq2
      injection heq2 with heq3
      subst heq3
      exact ih
    next hfall => exact absurd hres (hfall nested)
  | case3 d hd fd rest hpred hnores ih =>
    rw [extract_nudity_safe_score, safeScoreAmended]
    rw [if_neg hd]
    split
    next nested2 heq => exact absurd heq (hnores nested2)
    next hfall =>
      split
      next fd2 rest2 heq2 =>
        rw [hpred] at heq2
        simp only [Option.some.injEq, PyVal.plist.injEq, List.cons.injEq,
          PyVal.pdict.injEq] at heq2
        obtain ⟨hfd, hrest⟩ := heq2
        subst hfd
        exact ih
      next hfall2 => exact absurd hpred (hfall2 fd rest)
  | case4 d hd hnores hnopred =>
    rw [extract_nudity_safe_score, safeScoreAmended]
    rw [if_neg hd]
    split
    next nested2 heq => exact absurd heq (hnores nested2)
    next hfall =>
      split
      next fd2 rest2 heq2 => exact absurd heq2 (hnopred fd2 rest2)
      next hfall2 => exact extractNudityScalar_eq d

/-- C5 counterexample: on the response dict `{"suggestive_classes": 5}`
nothing is recognized, so the claimed decision table defaults to 1.0
(fully safe), but the code raises `AttributeError` (Python `.get` chained
onto the non-dict value 5) instead of returning a score. -/
theorem C5_counterexample :
    extract_nudity_safe_score [("suggestive_classes", PyVal.pnum 5)]
      = .error .attributeError ∧
    safeScoreClaim [("suggestive_classes", PyVal.pnum 5)] = 1 := by
  constructor
  · rw [extract_nudity_safe_score]
    rfl
  · rw [safeScoreClaim]
    rfl

/-- C5 (amended): `extract_nudity_safe_score` derives the safety score by
exactly the claimed precedence — nested `result` wrapper, then
`predictions[0]`, then explicit safe-probability fields, then the boolean
`safe` flag, then `nsfw_score` inversion, then boolean `nsfw`/`unsafe`
flags, then a label+score pair, then the legacy nested
category-probability structure, defaulting to 1.0 when nothing is
recognized — except that a non-dict value under `suggestive_classes` (or
under `cleavage_categories` inside it) makes the legacy step raise
`AttributeError` instead of defaulting to fully safe. -/
theorem C5_safe_score_precedence_amended (d : PyDict) :
    extract_nudity_safe_score d = safeScoreAmended d :=
  nudity_code_eq_amended d

/-! ## `src/image_scorer.py` — filtering and ranking (`filter_and_sort`) -/

/-- Derived safety flag of `score_image` (image_scorer.py line 318):
`is_safe = nudity_safe_score >= config.min_nudity_safe_score`. -/
def derived_is_safe (cfg : Config) (nudity_safe_score : ℚ) : Bool :=
  nudity_safe_score ≥ cfg.min_nudity_safe_score

/-- The threshold filter of `filter_and_sort` (image_scorer.py lines
381-393): drop unsafe entries, entries below the quality floor, and
entries whose present presentation score is below the fit floor. -/
def keepImage (cfg : Config) (x : ScoredImage) : Bool :=
  if !x.scores.is_safe then false
  else if x.scores.quality_score < cfg.min_quality_score then false
  else match x.scores.presentation_score with
    | some p => if p < cfg.min_presentation_score then false else true
    | none => true

/-- The sort key of image_scorer.py lines 396-401:
`(x.scores.presentation_score or 0, x.scores.quality_score)` (a
presentation score of 0.0 is falsy in Python, but `or 0` then still
yields the same value 0). -/
def sortKey (x : ScoredImage) : ℚ × ℚ :=
  (x.scores.presentation_score.getD 0, x.scores.quality_score)

/-- Comparator realizing Python `list.sort(key=..., reverse=True)`:
`x` may precede `y` iff `x`'s key is lexicographically ≥ `y`'s.  Python's
sort is stable also with `reverse=True` (ties keep input order), which is
exactly stable `mergeSort` with this comparator. -/
def sortGE (x y : ScoredImage) : Bool :=
  decide ((sortKey y).1 < (sortKey x).1 ∨
    ((sortKey y).1 = (sortKey x).1 ∧ (sortKey y).2 ≤ (sortKey x).2))

/-- `filter_and_sort` (image_scorer.py lines 367-404). -/
def filter_and_sort (cfg : Config) (scored_images : List ScoredImage) :
    List ScoredImage :=
  (scored_images.filter (keepImage cfg)).mergeSort sortGE

/-- The descending-key comparator is total. -/
theorem sortGE_total (a b : ScoredImage) : sortGE a b || sortGE b a := by
  unfold sortGE
  simp only [Bool.or_eq_true, decide_eq_true_eq]
  rcases lt_trichotomy (sortKey a).1 (sortKey b).1 with h | h | h
  · right; left; exact h
  · rcases le_total (sortKey a).2 (sortKey b).2 with h2 | h2
    · right; right; exact ⟨h, h2⟩
    · left; right; exact ⟨h.symm, h2⟩
  · left; left; exact h

/-- The descending-key comparator is transitive. -/
theorem sortGE_trans (a b c : ScoredImage) :
    sortGE a b → sortGE b c → sortGE a c := by
  unfold sortGE
  simp only [decide_eq_true_eq]
  rintro (h1 | ⟨h1, h1q⟩) (h2 | ⟨h2, h2q⟩)
  · left; exact h2.trans h1
  · left; exact h2 ▸ h1
  · left; exact h2.trans_eq h1
  · right; exact ⟨h2.trans h1, h2q.trans h1q⟩

/-- C4: `filter_and_sort` keeps exactly the entries that are safe, at or
above the quality floor, and (when a fit score is present) at or above
the fit floor — a missing fit score is never grounds for rejection and an
unsafe entry is dropped regardless of its other scores (e.g. a nudity
safety score of 0.98 under the 0.99 floor derives `is_safe = false`); the
survivors are a permutation of the filtered input sorted descending by
(fit-or-0, quality) lexicographically, and ties on the full key keep
their relative input order (stable sort). -/
theorem C4_filter_and_sort_spec (cfg : Config) (l : List ScoredImage) :
    (∀ x, keepImage cfg x = true ↔
      (x.scores.is_safe = true ∧
        cfg.min_quality_score ≤ x.scores.quality_score ∧
        ∀ p, x.scores.presentation_score = some p →
          cfg.min_presentation_score ≤ p)) ∧
    (filter_and_sort cfg l).Perm (l.filter (keepImage cfg)) ∧
    (filter_and_sort cfg l).Pairwise (fun x y => sortGE x y = true) ∧
    (∀ a b, sortKey a = sortKey b → keepImage cfg a = true →
      keepImage cfg b = true → [a, b].Sublist l →
      [a, b].Sublist (filter_and_sort cfg l)) ∧
    (∀ x ∈ filter_and_sort cfg l, x.scores.is_safe = true) ∧
    (∀ cfg2 : Config, cfg2.min_nudity_safe_score = 99/100 →
      derived_is_safe cfg2 (98/100) = false) := by
  have hkeep : ∀ x, keepImage cfg x = true ↔
      (x.scores.is_safe = true ∧
        cfg.min_quality_score ≤ x.scores.quality_score ∧
        ∀ p, x.scores.presentation_score = some p →
          cfg.min_presentation_score ≤ p) := by
    intro x
    unfold keepImage
    rcases hsafe : x.scores.is_safe with _ | _
    · simp [hsafe]
    · rcases hq : decide (x.scores.quality_score < cfg.min_quality_score)
        with _ | _
      · rcases hp : x.scores.presentation_score with _ | p
        · simp only [hsafe, hp]
          simp at hq
          simp [hq]
        · rcases hpf : decide (p < cfg.min_presentation_score) with _ | _
          · simp only [hsafe, hp]
            simp at hq hpf
            simp [hq, hpf]
          · simp only [hsafe, hp]
            simp at hq hpf
            simp [hq]
      · simp only [hsafe]
        simp at hq
        simp [hq]
  have hperm : (filter_and_sort cfg l).Perm (l.filter (keepImage cfg)) :=
    List.mergeSort_perm (l.filter (keepImage cfg)) sortGE
  refine ⟨hkeep, hperm, ?_, ?_, ?_, ?_⟩
  · exact List.sorted_mergeSort sortGE_trans sortGE_total
      (l.filter (keepImage cfg))
  · intro a b hk ha hb hsub
    have hab : sortGE a b = true := by
      unfold sortGE
      simp only [decide_eq_true_eq]
      right
      rw [hk]
      exact ⟨rfl, le_refl _⟩
    have hsubf : [a, b].Sublist (l.filter (keepImage cfg)) := by
      have := hsub.filter (keepImage cfg)
      simpa [ha, hb] using this
    exact List.pair_sublist_mergeSort sortGE_trans sortGE_total hab hsubf
  · intro x hx
    have hxf : x ∈ l.filter (keepImage cfg) := hperm.mem_iff.mp hx
    have := (List.mem_filter.mp hxf).2
    exact ((hkeep x).mp this).1
  · intro cfg2 h2
    unfold derived_is_safe
    rw [h2]
    norm_num

/-- A concrete safe, high-quality scored image for witnesses. -/
def sampleScored : ScoredImage :=
  { image_ref :=
      { index := 0, id := some "w1", alt := none, regular_url := "u",
        full_url := "f", source := "unsplash" },
    scores :=
      { quality_score := 1, presentation_score := none, is_safe := true,
        nudity_score := some 1 } }

/-- Witness for C4: a duplicated surviving candidate stays in input order
through `filter_and_sort` under the default thresholds. -/
theorem C4_witness :
    [sampleScored, sampleScored].Sublist
      (filter_and_sort {} [sampleScored, sampleScored]) :=
  (C4_filter_and_sort_spec {} [sampleScored, sampleScored]).2.2.2.1
    sampleScored sampleScored rfl (by norm_num [keepImage, sampleScored])
    (by norm_num [keepImage, sampleScored]) (List.Sublist.refl _)

/-! ## `src/keyword_extractor.py` — keyword extraction -/

/-- Python truthiness of an optional string list. -/
def pyTruthyStrList : Option (List String) → Bool
  | none => false
  | some [] => false
  | some (_ :: _) => true

/-- `", ".join(l)`. -/
def joinCommaSpace (l : List String) : String := String.intercalate ", " l

/-- Outcomes of the external LLM interactions of `extract_keywords`. -/
structure ExtractEnv where
  /-- `extraction_chain.invoke` (keyword_extractor.py line 88): the raw
  response text, or the exception the call raised. -/
  extractionResponse : String → Except PyError String
  /-- `json.loads` + `KeywordExtractionResult(**data)` (lines 91-92):
  `none` models the caught parse/validation failure. -/
  parse : String → Option KeywordExtractionResult
  /-- `refinement_chain.invoke` (line 103). -/
  refineResponse : String → Except PyError String

/-- The text-part assembly of keyword_extractor.py lines 77-84: optional
title, then each bullet dict's `"bullet"` value (default `""`). -/
def slideTextParts (slide : SlideInput) : List PyVal :=
  (match slide.title with
   | some t => if t ≠ "" then [PyVal.pstr t] else []
   | none => []) ++
  (match slide.bullets with
   | some bs => bs.map (fun b => (PyDict.get b "bullet").getD (.pstr ""))
   | none => [])

/-- `extract_keywords` (keyword_extractor.py lines 52-105).  The first
statement of the body, `if slide.unsplashSearchTerms:`, dereferences a
field `SlideInput` does not declare, so every call raises
`AttributeError`; the rest of the body is embedded faithfully but is
unreachable. -/
def extract_keywords (env : ExtractEnv) (slide : SlideInput) :
    Except PyError (KeywordExtractionResult × String) := do
  let terms ← getattrUnsplashSearchTerms slide
  if pyTruthyStrList terms then
    let explicit_keywords := (terms.getD []).filter (fun k => k ≠ "")
    let extraction_obj : KeywordExtractionResult :=
      { skip := false, english_keywords := explicit_keywords }
    let refined_keywords :=
      if explicit_keywords ≠ [] then joinCommaSpace (explicit_keywords.take 3)
      else ""
    return (extraction_obj, refined_keywords)
  else
    let joined ← pyJoinSpace ((slideTextParts slide).filter PyVal.truthy)
    let text := joined.trim
    let extraction_result ← env.extractionResponse text
    let extraction_obj ← (match env.parse extraction_result with
      | some obj => pure obj
      | none => do
          let terms2 ← getattrUnsplashSearchTerms slide
          pure { skip := false, english_keywords := terms2.getD [] })
    let all_keywords := joinCommaSpace extraction_obj.english_keywords
    let refined_keywords ← env.refineResponse all_keywords
    return (extraction_obj, refined_keywords.trim)

/-- Whatever the environment and the slide, `extract_keywords` raises
`AttributeError` at its first statement. -/
theorem extract_keywords_raises (env : ExtractEnv) (slide : SlideInput) :
    extract_keywords env slide = .error .attributeError := rfl

/-! ## `src/orchestrator.py` — language normalization (`_ensure_english`) -/

/-- Replace the value of a present key (Python dict assignment when the
key exists; appended otherwise). -/
def PyDict.set (d : PyDict) (k : String) (v : PyVal) : PyDict :=
  match d with
  | [] => [(k, v)]
  | (k2, v2) :: rest =>
    if k2 = k then (k, v) :: rest else (k2, v2) :: PyDict.set rest k v

/-- Outcome of `translate_text`'s LLM invocation (orchestrator.py lines
271-273) for a given input value. -/
structure TranslateEnv where
  translate : PyVal → Except PyError String

/-- `_is_probably_english` (orchestrator.py lines 295-307). -/
def is_probably_english (text : String) : Bool :=
  if text = "" then true
  else if ['ä', 'ö', 'ü', 'ß'].any (fun c => text.toList.contains c) then false
  else if ([" und ", " der ", " die ", " das ", " mit ", " bitte",
      "zusammenfassung", "fragen"].any
        (fun m => containsSub m.toList text.toList)) then false
  else true

/-- The `try` body of `_ensure_english` (orchestrator.py lines 260-290). -/
def ensure_english_body (env : TranslateEnv) (slide : SlideInput) :
    Except PyError SlideInput := do
  let texts : List PyVal :=
    (match slide.title with
     | some t => if t ≠ "" then [PyVal.pstr t] else []
     | none => []) ++
    (match slide.bullets with
     | some bs =>
       (bs.filter (fun b =>
         ((PyDict.get b "bullet").map PyVal.truthy).getD false)).map
           (fun b => (PyDict.get b "bullet").getD (.pstr ""))
     | none => [])
  let joined ← pyJoinSpace (texts.filter PyVal.truthy)
  let all_text := joined.trim.toLower
  if is_probably_english all_text then
    return slide
  let new_title ← (match slide.title with
    | some t =>
      if t ≠ "" then do
        let r ← env.translate (.pstr t)
        pure (some r.trim)
      else pure (none : Option String)
    | none => pure (none : Option String))
  let new_bullets ← (match slide.bullets with
    | some bs => bs.mapM (fun b =>
        match PyDict.get b "bullet" with
        | some txt =>
          if txt.truthy then do
            let r ← env.translate txt
            pure (PyDict.set b "bullet" (.pstr r.trim))
          else pure b
        | none => pure b)
    | none => pure ([] : List PyDict))
  return { slide with title := new_title, bullets := some new_bullets }

/-- `_ensure_english` (orchestrator.py lines 256-293): any exception in
the body is caught and the original slide returned. -/
def ensure_english (env : TranslateEnv) (slide : SlideInput) : SlideInput :=
  match ensure_english_body env slide with
  | .ok s => s
  | .error _ => slide

/-! ## `src/orchestrator.py` — generation controller (`_generate_ai_image`) -/

/-- One entry of the generation controller's external-call trace. -/
inductive GenCall where
  | generate (model : String)
  | nudityCheck (url : String)
deriving Repr, DecidableEq

/-- Outcomes of the external calls `_generate_ai_image` makes, in program
order.  `generate_from_keywords` can itself raise (prompt-creation
failures are re-raised, image_generator.py line 98), hence `Except`
around the optional URL. -/
structure GenEnv where
  /-- First `generate_from_keywords` call (orchestrator.py line 160). -/
  primary : Except PyError (Option String)
  /-- `image_generator.last_error` observed after a primary `None`. -/
  primaryError : Option String
  /-- `store_data_url` on the primary data URL (line 175): image id. -/
  storePrimary : Except PyError String
  /-- Flux download + `store_bytes` (lines 183-187): image id. -/
  download : Except PyError String
  /-- `check_nudity_sightengine(served_url)` (line 196): returned value
  or raised exception. -/
  nudity : Except PyError PyVal
  /-- Retry `generate_from_keywords` call with "banana" (line 205). -/
  retry : Except PyError (Option String)
  /-- `store_data_url` on the retry data URL (line 216): image id. -/
  storeRetry : Except PyError String

/-- `u.rstrip("/")`. -/
def rstripSlashes (s : String) : String := s.dropRightWhile (fun c => c = '/')

/-- `config.public_base_url.rstrip("/") if ... else "http://localhost:8080"`
(orchestrator.py line 168). -/
def baseUrl (cfg : Config) : String :=
  match cfg.public_base_url with
  | some u => if u ≠ "" then rstripSlashes u else "http://localhost:8080"
  | none => "http://localhost:8080"

/-- Caching step: on success serve `{base}/generated/{id}`, on a caught
exception keep the original URL (orchestrator.py lines 174-179, 182-191,
215-220). -/
def materializeUrl (stored : Except PyError String) (base image_url : String) :
    String :=
  match stored with
  | .ok image_id => base ++ "/generated/" ++ image_id
  | .error _ => image_url

/-- Python `s.startswith(p)` over the character lists (computable by the
kernel, unlike `String.startsWith`). -/
def pyStartsWith (s p : String) : Bool := p.toList.isPrefixOf s.toList

/-- Materialization of the primary result (orchestrator.py lines 170-191):
data URLs go through the cache, Flux http URLs are downloaded and cached,
anything else is served as-is. -/
def servePrimary (env : GenEnv) (cfg : Config) (ai_model image_url : String) :
    String :=
  if pyStartsWith image_url "data:" then
    materializeUrl env.storePrimary (baseUrl cfg) image_url
  else if ai_model = "flux" ∧ pyStartsWith image_url "http" then
    materializeUrl env.download (baseUrl cfg) image_url
  else image_url

/-- Materialization of the retry result (orchestrator.py lines 213-223):
only data URLs are cached; no download for banana. -/
def serveRetry (env : GenEnv) (cfg : Config) (retry_url : String) : String :=
  if pyStartsWith retry_url "data:" then
    materializeUrl env.storeRetry (baseUrl cfg) retry_url
  else retry_url

/-- The nudity-score lookup of orchestrator.py lines 195-200:
`nudity_data.get("suggestive_classes", {}).get("cleavage_categories",
{}).get("none", 1.0)` inside a `try` — a raised call or a chained `.get`
on a non-dict (AttributeError) leaves the score `None`. -/
def genNudityScore (resp : Except PyError PyVal) : Option PyVal :=
  match resp with
  | .error _ => none
  | .ok (.pdict d) =>
    match pyGetOrEmpty d "suggestive_classes" with
    | .pdict sc =>
      match pyGetOrEmpty sc "cleavage_categories" with
      | .pdict cc => some ((PyDict.get cc "none").getD (.pnum 1))
      | _ => none
    | _ => none
  | .ok _ => none

/-- Python `value < f` against a float: numbers and booleans compare,
anything else raises `TypeError` (the comparison at orchestrator.py line
203 is outside the `try`). -/
def pyLtFloat (v : PyVal) (f : ℚ) : Except PyError Bool :=
  match v with
  | .pnum q => .ok (decide (q < f))
  | .pbool b => .ok (decide ((if b then (1 : ℚ) else 0) < f))
  | _ => .error (.exc "TypeError: not supported between instances")

/-- Whether the safety-gated retry fires (orchestrator.py line 203):
`nudity_score is not None and nudity_score < config.min_nudity_safe_score`. -/
def retryTriggered (env : GenEnv) (cfg : Config) : Except PyError Bool :=
  match genNudityScore env.nudity with
  | none => .ok false
  | some v => pyLtFloat v cfg.min_nudity_safe_score

/-- The two retry outcomes (orchestrator.py lines 212-233): a successful
retry is served (data URLs cached) and tagged `generated_banana`; a
failed retry falls through to the unconditional return of lines 235-242,
serving the primary URL under `generated_{slide.ai_model}`. -/
def genRetryOutcome (env : GenEnv) (cfg : Config) (slide : SlideInput)
    (kw ai_model served_url : String) :
    Option String → ImageResult × List GenCall
  | some retry_url =>
    ({ url := serveRetry env cfg retry_url, source := "generated_banana",
       keywords := kw, error := none },
     [.generate ai_model, .nudityCheck served_url, .generate "banana"])
  | none =>
    ({ url := served_url, source := "generated_" ++ slide.ai_model.str,
       keywords := kw, error := none },
     [.generate ai_model, .nudityCheck served_url, .generate "banana"])

/-- The primary-result branch of `_generate_ai_image` (orchestrator.py
lines 170-254). -/
def genAfterPrimary (env : GenEnv) (cfg : Config) (slide : SlideInput)
    (kw ai_model : String) : Option String → Except PyError (ImageResult × List GenCall)
  | some image_url => do
    let served_url := servePrimary env cfg ai_model image_url
    let triggered ← retryTriggered env cfg
    if triggered then do
      let retry_url? ← env.retry
      pure (genRetryOutcome env cfg slide kw ai_model served_url retry_url?)
    else
      pure ({ url := served_url,
              source := "generated_" ++ slide.ai_model.str,
              keywords := kw, error := none },
            [.generate ai_model, .nudityCheck served_url])
  | none =>
    -- lines 243-254
    let error_detail := pyOrStr env.primaryError "Image generation failed"
    let error_url := match cfg.public_base_url with
      | some u =>
        if u ≠ "" then rstripSlashes u ++ "/static/error.png"
        else "/static/error.png"
      | none => "/static/error.png"
    pure ({ url := error_url, source := "failed", keywords := kw,
            error := some error_detail },
          [.generate ai_model])

/-- Model selection of orchestrator.py lines 155-158: "banana" stays
banana; "auto" defaults to flux; otherwise pass through. -/
def resolveModel (slide : SlideInput) : String :=
  if slide.ai_model = AiModel.auto then "flux" else slide.ai_model.str

/-- `_generate_ai_image` (orchestrator.py lines 138-254), returning the
result together with the trace of generation/safety-check calls made. -/
def generate_ai_image (env : GenEnv) (cfg : Config) (slide : SlideInput)
    (keywords : String) : Except PyError (ImageResult × List GenCall) := do
  let image_url? ← env.primary
  genAfterPrimary env cfg slide keywords (resolveModel slide) image_url?

/-! ## `src/image_scorer.py` — per-candidate scoring (`score_image`) and
`src/orchestrator.py` — the pipeline (`process_slide`) -/

/-- `str(e)` of a caught exception, for the quota checks. -/
def errMsg : PyError → String
  | .attributeError => "attributeerror"
  | .exc m => m

/-- Outcomes of the three concurrent assessments for one candidate
(image_scorer.py lines 288-296, `asyncio.gather` with
`return_exceptions=True`). -/
structure ScoreOracle where
  /-- `score_quality_sightengine`: score or raised exception. -/
  quality : Except PyError ℚ
  /-- `score_presentation_fit`: catches internally, so an optional score
  (`None` both for "unconfigured/failed" and for an exception). -/
  presentation : Option ℚ
  /-- `check_nudity`: response dict or raised exception. -/
  nudity : Except PyError PyDict

/-- `score_image` (image_scorer.py lines 271-345).  The call to
`extract_nudity_safe_score` at line 316 is outside any `try`, so its
`AttributeError` propagates. -/
def score_image (cfg : Config) (o : ScoreOracle) (img : ImageRef) :
    Except PyError ScoredImage := do
  let quality_score : ℚ :=
    match o.quality with
    | .ok q => q
    | .error e =>
      if containsSub "daily usage limit".toList (errMsg e).toLower.toList then
        cfg.min_quality_score
      else 1/2
  let presentation_score := o.presentation
  let nudity_data : PyDict :=
    match o.nudity with
    | .ok d => d
    | .error _ => []
  let nudity_safe_score ← extract_nudity_safe_score nudity_data
  return { image_ref := img,
           scores := { quality_score := quality_score,
                       presentation_score := presentation_score,
                       is_safe := derived_is_safe cfg nudity_safe_score,
                       nudity_score := some nudity_safe_score } }

/-- The full environment of a pipeline run past keyword extraction. -/
structure PipelineEnv where
  cfg : Config
  search : SearchEnv
  scoreOracle : ImageRef → ScoreOracle
  gen : GenEnv

/-- `(slide.style or "").lower()` (orchestrator.py line 70): raises
`AttributeError` whenever `style` is a nonempty list (the declared type
of `SlideInput.style` is `Optional[List[str]]`, and a list has no
`.lower`); a `None` or empty (falsy) list yields `""`. -/
def styleKey : Option (List String) → Except PyError String
  | some (_ :: _) => .error .attributeError
  | _ => .ok ""

/-- Step 4 of the pipeline (orchestrator.py lines 108-136): filter/sort
the scored candidates, return the best stock image, and otherwise the
"none" result (`stock_only`) or the generation fallback. -/
def pickFromScored (env : PipelineEnv) (slide : SlideInput)
    (refined_keywords : String) (scored_images : List ScoredImage) :
    Except PyError (ImageResult × List GenCall) :=
  match filter_and_sort env.cfg scored_images with
  | best_image :: _ =>
    .ok ({ url := best_image.image_ref.full_url,
           source := "stock_" ++ best_image.image_ref.source,
           keywords := refined_keywords, error := none }, [])
  | [] =>
    if slide.image_mode = ImageMode.stock_only then
      .ok ({ url := "", source := "none",
             keywords := refined_keywords, error := none }, [])
    else
      generate_ai_image env.gen env.cfg slide refined_keywords

/-- Steps 2-4 of the pipeline on the search results (orchestrator.py
lines 88-136): empty-result handling, scoring (`score_images` = gather
over `score_image`, an exception propagating), then `pickFromScored`. -/
def searchBranch (env : PipelineEnv) (slide : SlideInput)
    (refined_keywords : String) (search_results : List ImageRef) :
    Except PyError (ImageResult × List GenCall) :=
  if search_results = [] ∧ slide.image_mode = ImageMode.stock_only then
    .ok ({ url := "", source := "none", keywords := refined_keywords,
           error := none }, [])
  else if search_results = [] then
    generate_ai_image env.gen env.cfg slide refined_keywords
  else do
    let scored_images ← search_results.mapM
      (fun img => score_image env.cfg (env.scoreOracle img) img)
    pickFromScored env slide refined_keywords scored_images

/-- `process_slide` after keyword extraction (orchestrator.py lines
61-136): skip check, scenario-style and `ai_only` shortcuts, then the
stock-search branch. -/
def process_slide_rest (env : PipelineEnv) (slide : SlideInput)
    (extraction_result : KeywordExtractionResult) (refined_keywords : String) :
    Except PyError (ImageResult × List GenCall) := do
  if extraction_result.skip then
    return ({ url := "", source := "none", keywords := refined_keywords,
              error := none }, [])
  let style_key ← styleKey slide.style
  if style_key = "flat_illustration" ∨ style_key = "fine_line" then
    generate_ai_image env.gen env.cfg slide refined_keywords
  else if slide.image_mode = ImageMode.ai_only then
    generate_ai_image env.gen env.cfg slide refined_keywords
  else
    searchBranch env slide refined_keywords (search_all env.search)

/-- Everything a full `process_slide` run consumes. -/
structure OrchestratorEnv where
  translate : TranslateEnv
  extract : ExtractEnv
  pipeline : PipelineEnv

/-- `process_slide` (orchestrator.py lines 36-136): language
normalization, keyword extraction, then the pipeline body. -/
def process_slide (env : OrchestratorEnv) (slide : SlideInput) :
    Except PyError (ImageResult × List GenCall) := do
  let slide2 := ensure_english env.translate slide
  let er ← extract_keywords env.extract slide2
  process_slide_rest env.pipeline slide2 er.1 er.2

/-- `Except` bind on a success, as a rewrite rule. -/
theorem exceptBind_ok {A B : Type} (a : A) (f : A → Except PyError B) :
    (Except.ok a >>= f) = f a := rfl

/-- `Except` bind on an error, as a rewrite rule. -/
theorem exceptBind_err {A B : Type} (e : PyError) (f : A → Except PyError B) :
    ((Except.error e : Except PyError A) >>= f) = Except.error e := rfl

/-- No generated tag is the "none" tag. -/
theorem generated_ne_none (s : String) : "generated_" ++ s ≠ "none" := by
  intro h
  have hlen := congrArg String.length h
  rw [String.length_append] at hlen
  rw [show "generated_".length = 10 from rfl, show "none".length = 4 from rfl]
    at hlen
  omega

/-- No stock tag is the "none" tag. -/
theorem stock_ne_none (s : String) : "stock_" ++ s ≠ "none" := by
  intro h
  have hlen := congrArg String.length h
  rw [String.length_append] at hlen
  rw [show "stock_".length = 6 from rfl, show "none".length = 4 from rfl]
    at hlen
  omega

/-- No generated tag is the "failed" tag. -/
theorem generated_ne_failed (s : String) : "generated_" ++ s ≠ "failed" := by
  intro h
  have hlen := congrArg String.length h
  rw [String.length_append] at hlen
  rw [show "generated_".length = 10 from rfl,
      show "failed".length = 6 from rfl] at hlen
  omega

/-- Case analysis on the generation controller: every successful run of
`_generate_ai_image` is tagged "failed", "generated_banana" or
`generated_{slide.ai_model}`. -/
theorem generate_ai_image_source (env : GenEnv) (cfg : Config)
    (slide : SlideInput) (kw : String) (r : ImageResult) (calls : List GenCall)
    (h : generate_ai_image env cfg slide kw = .ok (r, calls)) :
    r.source = "failed" ∨ r.source = "generated_banana" ∨
    r.source = "generated_" ++ slide.ai_model.str := by
  unfold generate_ai_image at h
  cases hp : env.primary with
  | error e => rw [hp, exceptBind_err] at h; cases h
  | ok u? =>
    rw [hp, exceptBind_ok] at h
    cases u? with
    | none =>
      simp only [genAfterPrimary] at h
      cases h
      left; rfl
    | some u =>
      simp only [genAfterPrimary] at h
      cases ht : retryTriggered env cfg with
      | error e => rw [ht, exceptBind_err] at h; cases h
      | ok b =>
        rw [ht, exceptBind_ok] at h
        cases b with
        | true =>
          rw [if_pos rfl] at h
          cases hr : env.retry with
          | error e => rw [hr, exceptBind_err] at h; cases h
          | ok v? =>
            rw [hr, exceptBind_ok] at h
            cases v? with
            | none =>
              have h2 := Except.ok.inj h
              have h3 : _ = r := congrArg Prod.fst h2
              rw [← h3]
              right; right; rfl
            | some v =>
              have h2 := Except.ok.inj h
              have h3 : _ = r := congrArg Prod.fst h2
              rw [← h3]
              right; left; rfl
        | false =>
          rw [if_neg (by decide : ¬ (false = true))] at h
          have h2 := Except.ok.inj h
          have h3 : _ = r := congrArg Prod.fst h2
          rw [← h3]
          right; right; rfl

/-- C1: the claim says no exception crosses the `process_slide` boundary
and extraction-parse failures fall back to the override list.  In the
code, `extract_keywords`'s first statement `if slide.unsplashSearchTerms:`
(keyword_extractor.py line 63) reads an attribute `SlideInput` does not
declare (models.py declares `image_keywords`, and pydantic's default
`extra="ignore"` drops unknown constructor arguments), so every call of
`process_slide` raises `AttributeError` out of the pipeline — for every
environment and every slide. -/
theorem C1_process_slide_always_raises (env : OrchestratorEnv)
    (slide : SlideInput) :
    process_slide env slide = .error .attributeError := rfl

/-- An extraction environment whose LLM calls all succeed trivially (they
are never reached). -/
def trivialExtractEnv : ExtractEnv :=
  { extractionResponse := fun _ => .ok "",
    parse := fun _ => none,
    refineResponse := fun _ => .ok "" }

/-- The slide of `main.py`'s example, carrying a non-empty keyword
override in the declared `image_keywords` field. -/
def C2_slide : SlideInput :=
  { image_keywords := some ["lean manufacturing", "industrial efficiency",
                            "business transformation"] }

/-- C2: the claim says a slide with a non-empty keyword override makes
`extract_keywords` bypass the LLM and return the first three overrides
joined by ", ".  In the code the override is read as
`slide.unsplashSearchTerms` (keyword_extractor.py line 63), an attribute
`SlideInput` does not declare — the declared field is `image_keywords` —
so on a slide with a populated override list the call raises
`AttributeError` instead of returning the joined overrides. -/
theorem C2_override_bypass_raises :
    extract_keywords trivialExtractEnv C2_slide = .error .attributeError := rfl
/-- A slide requesting `ai_only` generation with the `imagen` model. -/
def imagenSlide : SlideInput := { image_mode := .ai_only, ai_model := .imagen }

/-- A generation environment whose primary attempt yields a plain URL,
whose nudity check raises (so the safety gate cannot be evaluated), and
whose cache/retry calls are never reached. -/
def quietGenEnv : GenEnv :=
  { primary := .ok (some "u-primary"),
    primaryError := none,
    storePrimary := .error (.exc "unused"),
    download := .error (.exc "unused"),
    nudity := .error (.exc "sightengine down"),
    retry := .ok none,
    storeRetry := .error (.exc "unused") }

/-- A generation environment whose primary attempt succeeds, whose nudity
check reports a safe-probability of 1/2 (below the default 0.99 floor),
and whose banana retry returns `None` (generation failed). -/
def C3_genEnv : GenEnv :=
  { primary := .ok (some "http://img.example/p.png"),
    primaryError := none,
    storePrimary := .error (.exc "unused"),
    download := .error (.exc "unused"),
    nudity := .ok (.pdict [("suggestive_classes", .pdict
      [("cleavage_categories", .pdict [("none", .pnum (1/2))])])]),
    retry := .ok none,
    storeRetry := .error (.exc "unused") }

/-- In `C3_genEnv` under the default config the safety gate evaluates to
"unsafe": the score 1/2 is below the 0.99 floor, so the retry fires. -/
theorem retryTriggered_half : retryTriggered C3_genEnv {} = .ok true := by
  show Except.ok (decide ((1:ℚ)/2 < 99/100)) = Except.ok true
  rw [decide_eq_true (by norm_num : (1:ℚ)/2 < 99/100)]

/-- C3 counterexample: a run where the safety gate was evaluated and
failed (score 1/2 below the 0.99 floor) and the banana retry also failed
still returns the unsafe primary image under the `generated_imagen` tag
(orchestrator.py lines 232-242 fall through to the unconditional
`generated_{slide.ai_model}` return), refuting "generated_* only if the
gate passed or could not be evaluated". -/
theorem C3_counterexample :
    generate_ai_image C3_genEnv {} imagenSlide "kw" =
      .ok ({ url := "http://img.example/p.png", source := "generated_imagen",
             keywords := "kw", error := none },
           [.generate "imagen", .nudityCheck "http://img.example/p.png",
            .generate "banana"]) ∧
    retryTriggered C3_genEnv {} = .ok true ∧
    C3_genEnv.retry = .ok none := by
  refine ⟨?_, retryTriggered_half, rfl⟩
  unfold generate_ai_image
  rw [show C3_genEnv.primary = .ok (some "http://img.example/p.png") from rfl,
      exceptBind_ok]
  simp only [genAfterPrimary]
  rw [retryTriggered_half, exceptBind_ok, if_pos rfl,
      show C3_genEnv.retry = .ok none from rfl, exceptBind_ok]
  rfl

/-- C3 amended: a successful `_generate_ai_image` run carries a
generated_* tag only if the safety gate passed or could not be evaluated
(`retryTriggered = ok false`), or the gate failed and the banana retry
ran — either succeeding (tag `generated_banana`) or itself failing, in
which case the unsafe primary image is returned under
`generated_{slide.ai_model}`. -/
theorem C3_generated_tag_amended (env : GenEnv) (cfg : Config)
    (slide : SlideInput) (kw : String) (r : ImageResult) (calls : List GenCall)
    (h : generate_ai_image env cfg slide kw = .ok (r, calls))
    (hgen : ∃ t, r.source = "generated_" ++ t) :
    retryTriggered env cfg = .ok false ∨
    (retryTriggered env cfg = .ok true ∧
      ((∃ v, env.retry = .ok (some v) ∧ r.source = "generated_banana") ∨
       (env.retry = .ok none ∧
        r.source = "generated_" ++ slide.ai_model.str))) := by
  unfold generate_ai_image at h
  cases hp : env.primary with
  | error e => rw [hp, exceptBind_err] at h; cases h
  | ok u? =>
    rw [hp, exceptBind_ok] at h
    cases u? with
    | none =>
      simp only [genAfterPrimary] at h
      cases h
      obtain ⟨t, hgen⟩ := hgen
      exact absurd hgen.symm (generated_ne_failed t)
    | some u =>
      simp only [genAfterPrimary] at h
      cases ht : retryTriggered env cfg with
      | error e => rw [ht, exceptBind_err] at h; cases h
      | ok b =>
        rw [ht, exceptBind_ok] at h
        cases b with
        | true =>
          rw [if_pos rfl] at h
          cases hr : env.retry with
          | error e => rw [hr, exceptBind_err] at h; cases h
          | ok v? =>
            rw [hr, exceptBind_ok] at h
            cases v? with
            | none =>
              have h2 := Except.ok.inj h
              have h3 : _ = r := congrArg Prod.fst h2
              right
              rw [← h3]
              exact ⟨rfl, Or.inr ⟨rfl, rfl⟩⟩
            | some v =>
              have h2 := Except.ok.inj h
              have h3 : _ = r := congrArg Prod.fst h2
              right
              rw [← h3]
              exact ⟨rfl, Or.inl ⟨v, rfl, rfl⟩⟩
        | false => exact Or.inl rfl

/-- C3 witness: the amended theorem applied to a concrete run where the
nudity check raised (gate unevaluable) and a `generated_imagen` tag was
returned: the first disjunct holds. -/
theorem C3_witness :
    retryTriggered quietGenEnv {} = .ok false ∨
    (retryTriggered quietGenEnv {} = .ok true ∧
      ((∃ v, quietGenEnv.retry = .ok (some v) ∧
          "generated_imagen" = "generated_banana") ∨
       (quietGenEnv.retry = .ok none ∧
        "generated_imagen" = "generated_" ++ imagenSlide.ai_model.str))) :=
  C3_generated_tag_amended quietGenEnv {} imagenSlide "kw"
    { url := "u-primary", source := "generated_imagen", keywords := "kw",
      error := none }
    [.generate "imagen", .nudityCheck "u-primary"]
    rfl ⟨"imagen", rfl⟩
/-- C6: when the primary generation succeeds and its nudity score
evaluates below the configured safety floor, exactly one regeneration is
performed with the fixed alternate model "banana" (independent of
`slide.ai_model`); the call trace holds a single nudity check — on the
primary image, so the retry's output is not safety-checked — and on retry
success the result is tagged `generated_banana`. -/
theorem C6_safety_retry_once (env : GenEnv) (cfg : Config)
    (slide : SlideInput) (kw u ru : String) (sv : PyVal)
    (hp : env.primary = .ok (some u))
    (hs : genNudityScore env.nudity = some sv)
    (hlt : pyLtFloat sv cfg.min_nudity_safe_score = .ok true)
    (hr : env.retry = .ok (some ru)) :
    generate_ai_image env cfg slide kw =
      .ok ({ url := serveRetry env cfg ru, source := "generated_banana",
             keywords := kw, error := none },
           [.generate (resolveModel slide),
            .nudityCheck (servePrimary env cfg (resolveModel slide) u),
            .generate "banana"]) := by
  have ht : retryTriggered env cfg = .ok true := by
    unfold retryTriggered
    rw [hs]
    exact hlt
  unfold generate_ai_image
  rw [hp, exceptBind_ok]
  simp only [genAfterPrimary]
  rw [ht, exceptBind_ok, if_pos rfl, hr, exceptBind_ok]
  rfl

/-- A generation environment whose primary attempt succeeds, whose nudity
check reports a safe-probability of 0, and whose banana retry succeeds. -/
def C6_env : GenEnv :=
  { primary := .ok (some "u-primary"),
    primaryError := none,
    storePrimary := .error (.exc "unused"),
    download := .error (.exc "unused"),
    nudity := .ok (.pdict [("suggestive_classes", .pdict
      [("cleavage_categories", .pdict [("none", .pnum 0)])])]),
    retry := .ok (some "u-retry"),
    storeRetry := .error (.exc "unused") }

/-- A config whose safety floor is 1 (every score below 1 is unsafe). -/
def C6_cfg : Config := { min_nudity_safe_score := 1 }

/-- C6 witness: the retry theorem at a concrete unsafe run. -/
theorem C6_witness :
    generate_ai_image C6_env C6_cfg imagenSlide "kw" =
      .ok ({ url := serveRetry C6_env C6_cfg "u-retry",
             source := "generated_banana", keywords := "kw", error := none },
           [.generate (resolveModel imagenSlide),
            .nudityCheck
              (servePrimary C6_env C6_cfg (resolveModel imagenSlide)
                "u-primary"),
            .generate "banana"]) :=
  C6_safety_retry_once C6_env C6_cfg imagenSlide "kw" "u-primary" "u-retry"
    (.pnum 0) rfl rfl rfl rfl

/-- A slide requesting `ai_only` generation with the "auto" model
selector. -/
def autoSlide : SlideInput := { image_mode := .ai_only, ai_model := .auto }

/-- C7 counterexample: with the "auto" selector the generator actually
called is "flux" (the resolved default, first entry of the call trace),
but the tag of the returned result is the f-string
`f"generated_{slide.ai_model}"` over the UNRESOLVED selector
(orchestrator.py line 236), i.e. "generated_auto", not "generated_flux" —
the tag does not name the generator that produced the image. -/
theorem C7_counterexample :
    generate_ai_image quietGenEnv {} autoSlide "kw" =
      .ok ({ url := "u-primary", source := "generated_auto",
             keywords := "kw", error := none },
           [.generate "flux", .nudityCheck "u-primary"]) ∧
    "generated_auto" ≠ "generated_flux" := by
  refine ⟨?_, by decide⟩
  unfold generate_ai_image
  rw [show quietGenEnv.primary = .ok (some "u-primary") from rfl,
      exceptBind_ok]
  simp only [genAfterPrimary]
  rw [show retryTriggered quietGenEnv {} = .ok false from rfl, exceptBind_ok,
      if_neg (by decide : ¬ (false = true))]
  rfl

/-- C7 amended: a successful generation that does not go through the
safety retry calls the generator `resolveModel slide` ("auto" resolved to
"flux", anything else passed through) and returns its materialized URL,
but the source tag is `generated_{slide.ai_model}` over the requested
selector — for "auto" the tag is "generated_auto", naming the selector,
not the flux generator that produced the image. -/
theorem C7_tag_amended (env : GenEnv) (cfg : Config) (slide : SlideInput)
    (kw u : String)
    (hp : env.primary = .ok (some u))
    (ht : retryTriggered env cfg = .ok false) :
    generate_ai_image env cfg slide kw =
      .ok ({ url := servePrimary env cfg (resolveModel slide) u,
             source := "generated_" ++ slide.ai_model.str,
             keywords := kw, error := none },
           [.generate (resolveModel slide),
            .nudityCheck (servePrimary env cfg (resolveModel slide) u)]) := by
  unfold generate_ai_image
  rw [hp, exceptBind_ok]
  simp only [genAfterPrimary]
  rw [ht, exceptBind_ok, if_neg (by decide : ¬ (false = true))]
  rfl

/-- C7 witness: the amended theorem at a concrete no-retry run with the
"auto" selector. -/
theorem C7_witness :
    generate_ai_image quietGenEnv {} autoSlide "kw" =
      .ok ({ url := servePrimary quietGenEnv {} (resolveModel autoSlide)
               "u-primary",
             source := "generated_" ++ autoSlide.ai_model.str,
             keywords := "kw", error := none },
           [.generate (resolveModel autoSlide),
            .nudityCheck
              (servePrimary quietGenEnv {} (resolveModel autoSlide)
                "u-primary")]) :=
  C7_tag_amended quietGenEnv {} autoSlide "kw" "u-primary" rfl rfl
/-- A successful generation-controller run is never tagged "none". -/
theorem gen_source_ne_none (env : GenEnv) (cfg : Config) (slide : SlideInput)
    (kw : String) (r : ImageResult) (calls : List GenCall)
    (h : generate_ai_image env cfg slide kw = .ok (r, calls)) :
    r.source ≠ "none" := by
  rcases generate_ai_image_source env cfg slide kw r calls h with h1 | h1 | h1
  · rw [h1]; decide
  · rw [h1]; decide
  · rw [h1]; exact generated_ne_none _

/-- A "none"-tagged outcome of the filter/pick step has an empty URL and
no error. -/
theorem pickFromScored_none (env : PipelineEnv) (slide : SlideInput)
    (kw : String) (scored : List ScoredImage) (r : ImageResult)
    (calls : List GenCall)
    (h : pickFromScored env slide kw scored = .ok (r, calls))
    (hs : r.source = "none") : r.url = "" ∧ r.error = none := by
  unfold pickFromScored at h
  cases hfs : filter_and_sort env.cfg scored with
  | cons best rest =>
    rw [hfs] at h
    cases h
    exact absurd hs (stock_ne_none _)
  | nil =>
    rw [hfs] at h
    by_cases hm : slide.image_mode = ImageMode.stock_only
    · rw [if_pos hm] at h
      cases h
      exact ⟨rfl, rfl⟩
    · rw [if_neg hm] at h
      exact absurd hs (gen_source_ne_none _ _ _ _ _ _ h)

/-- A "none"-tagged outcome of the stock-search branch has an empty URL
and no error. -/
theorem searchBranch_none (env : PipelineEnv) (slide : SlideInput)
    (kw : String) (results : List ImageRef) (r : ImageResult)
    (calls : List GenCall)
    (h : searchBranch env slide kw results = .ok (r, calls))
    (hs : r.source = "none") : r.url = "" ∧ r.error = none := by
  unfold searchBranch at h
  by_cases h1 : results = [] ∧ slide.image_mode = ImageMode.stock_only
  · rw [if_pos h1] at h
    cases h
    exact ⟨rfl, rfl⟩
  · rw [if_neg h1] at h
    by_cases h2 : results = []
    · rw [if_pos h2] at h
      exact absurd hs (gen_source_ne_none _ _ _ _ _ _ h)
    · rw [if_neg h2] at h
      cases hm : results.mapM
          (fun img => score_image env.cfg (env.scoreOracle img) img) with
      | error e => rw [hm, exceptBind_err] at h; cases h
      | ok scored =>
        rw [hm, exceptBind_ok] at h
        exact pickFromScored_none _ _ _ _ _ _ h hs

/-- C10: whenever the pipeline past keyword extraction returns a result
tagged "none" — the skip shortcut, the stock_only/no-candidates return,
or the stock_only/no-suitable-candidates return — the result's url is
the empty string and its error field is `None`. -/
theorem C10_none_result (env : PipelineEnv) (slide : SlideInput)
    (er : KeywordExtractionResult) (kw : String)
    (r : ImageResult) (calls : List GenCall)
    (h : process_slide_rest env slide er kw = .ok (r, calls))
    (hs : r.source = "none") : r.url = "" ∧ r.error = none := by
  unfold process_slide_rest at h
  cases hskip : er.skip with
  | true =>
    rw [hskip, if_pos rfl] at h
    cases h
    exact ⟨rfl, rfl⟩
  | false =>
    rw [hskip, if_neg (by decide : ¬ (false = true))] at h
    cases hst : styleKey slide.style with
    | error e => rw [hst, exceptBind_err] at h; cases h
    | ok sk =>
      rw [hst, exceptBind_ok] at h
      simp only [] at h
      by_cases hstyle2 : sk = "flat_illustration" ∨ sk = "fine_line"
      · rw [if_pos hstyle2] at h
        exact absurd hs (gen_source_ne_none _ _ _ _ _ _ h)
      · rw [if_neg hstyle2] at h
        by_cases hmode : slide.image_mode = ImageMode.ai_only
        · rw [if_pos hmode] at h
          exact absurd hs (gen_source_ne_none _ _ _ _ _ _ h)
        · rw [if_neg hmode] at h
          exact searchBranch_none _ _ _ _ _ _ h hs

/-- A pipeline environment for concrete runs (nothing past the skip check
is reached). -/
def C10_env : PipelineEnv :=
  { cfg := {},
    search := { unsplash := .ok [], pexels := .ok [] },
    scoreOracle := fun _ =>
      { quality := .ok 1, presentation := none, nudity := .ok [] },
    gen := quietGenEnv }

/-- C10 witness: the skip shortcut's "none" result at a concrete run. -/
theorem C10_witness : ("" : String) = "" ∧ (none : Option String) = none :=
  C10_none_result C10_env {} { skip := true } "kw"
    { url := "", source := "none", keywords := "kw", error := none } []
    rfl rfl
